import Mathlib

/-!
Shallow embedding of the configuration-resolution, rule-selection and
diagnostic-pipeline engine of the robotframework-cop-academy repository.

The embedding follows `src/robocop/config.py`, `src/robocop/linter/runner.py`
and `src/robocop/linter/reports/__init__.py`.  Python `None`-able fields are
`Option`s, Python truthiness is made explicit through `optListTruthy` /
`optBoolTruthy` / `optStrTruthy`, sets are association-free lists with
`contains` membership, and compiled glob patterns are abstracted as boolean
string predicates (the regex engine is external to the repository).
-/

namespace Robocop

/-- Severity: ordered enum Info < Warning < Error (RuleSeverity in
robocop.linter.rules; that module is not under src/, ordering modelled from
the spec's `{Info < Warning < Error}`). -/
inductive RuleSeverity where
  | info
  | warning
  | error
deriving DecidableEq, Repr

/-- Numeric rank realising the RuleSeverity order Info < Warning < Error. -/
def RuleSeverity.rank : RuleSeverity → Nat
  | .info => 0
  | .warning => 1
  | .error => 2

/-- A compiled rule glob pattern (`re.Pattern` produced by
`compile_rule_pattern`), abstracted as a boolean predicate on strings. -/
abbrev RulePattern := String → Bool

/-- Static plus runtime state of one rule (class Rule of robocop.linter.rules,
not under src/; fields modelled from the spec's data model).
`enabled_in_version` is the truthiness of the version-range check and
`severity_threshold` is the truthiness of `rule.config.get("severity_threshold")`. -/
structure Rule where
  rule_id : String
  name : String
  severity : RuleSeverity
  enabled : Bool
  deprecated : Bool
  enabled_in_version : Bool
  severity_threshold : Bool

/-- Python truthiness of an optional list: `None` and `[]` are falsy. -/
def optListTruthy {α : Type} (o : Option (List α)) : Bool :=
  match o with
  | some (_ :: _) => true
  | _ => false

/-- Python truthiness of an optional bool: `None` and `False` are falsy. -/
def optBoolTruthy (o : Option Bool) : Bool :=
  o.getD false

/-- Python truthiness of an optional string: `None` and `""` are falsy. -/
def optStrTruthy (o : Option String) : Bool :=
  match o with
  | some s => !s.isEmpty
  | none => false

def DEFAULT_ISSUE_FORMAT : String :=
  "{source}:{line}:{col} [{severity}] {rule_id} {desc} ({name})"

def DEFAULT_INCLUDE : List String := ["*.robot", "*.resource"]

def DEFAULT_EXCLUDE : List String :=
  [".direnv", ".eggs", ".git", ".svn", ".hg", ".nox", ".tox", ".venv", "venv", "dist"]

/-- LinterConfig dataclass (config.py).  Fields that the CLI may leave as
`None` are `Option`s; `include_rules`, `exclude_rules` and the two pattern
sets are created by default factories and never assigned `None` in the
repository, so they are plain lists here. -/
structure LinterConfig where
  configure : Option (List String) := some []
  select : Option (List String) := some []
  ignore : Option (List String) := some []
  issue_format : Option String := some DEFAULT_ISSUE_FORMAT
  threshold : Option RuleSeverity := some .info
  ext_rules : Option (List String) := some []
  include_rules : List String := []
  exclude_rules : List String := []
  include_rules_patterns : List RulePattern := []
  exclude_rules_patterns : List RulePattern := []
  reports : Option (List String) := some []
  persistent : Option Bool := some false
  compare : Option Bool := some false

/-- FileFiltersOptions dataclass (config.py).  The Lean keyword `include`
forces the `include` field to be spelled `include_filters`; the other field
names match the source. -/
structure FileFiltersOptions where
  include_filters : Option (List String) := some DEFAULT_INCLUDE
  extend_include : Option (List String) := none
  exclude : Option (List String) := some DEFAULT_EXCLUDE
  extend_exclude : Option (List String) := none

/-- Config dataclass (config.py).  The formatter sub-config takes no part in
any linter claim and is omitted; `linter` may be `None` in Python only on the
`format` CLI path, which never reaches the code under study, so it is plain. -/
structure Config where
  sources : Option (List String) := some ["."]
  file_filters : FileFiltersOptions := {}
  linter : LinterConfig := {}
  language : Option (List String) := some []
  exit_zero : Option Bool := some false
  config_source : String := "default configuration"

/-- Python `rule.severity < self.config.linter.threshold`.  A `None`
threshold would raise in Python; resolved configs always carry a severity,
so the `none` branch is inert. -/
def severityLtOpt (s : RuleSeverity) (t : Option RuleSeverity) : Bool :=
  match t with
  | some t => decide (s.rank < t.rank)
  | none => false

/-- RuleMatcher.is_rule_disabled (config.py lines 45-55). -/
def is_rule_disabled (config : Config) (rule : Rule) : Bool :=
  if rule.deprecated || !rule.enabled_in_version then true
  else if severityLtOpt rule.severity config.linter.threshold && !rule.severity_threshold then true
  else if config.linter.exclude_rules.contains rule.rule_id
      || config.linter.exclude_rules.contains rule.name then true
  else config.linter.exclude_rules_patterns.any fun pattern =>
    pattern rule.rule_id || pattern rule.name

/-- RuleMatcher.is_rule_enabled (config.py lines 31-43). -/
def is_rule_enabled (config : Config) (rule : Rule) : Bool :=
  if is_rule_disabled config rule then false
  else if !config.linter.include_rules.isEmpty
      || !config.linter.include_rules_patterns.isEmpty then
    if config.linter.include_rules.contains rule.rule_id
        || config.linter.include_rules.contains rule.name then true
    else config.linter.include_rules_patterns.any fun pattern =>
      pattern rule.rule_id || pattern rule.name
  else rule.enabled

/-- FileFiltersOptions.overwrite (config.py lines 171-184): overwrite default
value with options from cli, ignoring `None` values. -/
def FileFiltersOptions.overwrite (self other : FileFiltersOptions) : FileFiltersOptions :=
  { include_filters := if other.include_filters.isSome then other.include_filters
      else self.include_filters
    extend_include := if other.extend_include.isSome then other.extend_include
      else self.extend_include
    exclude := if other.exclude.isSome then other.exclude else self.exclude
    extend_exclude := if other.extend_exclude.isSome then other.extend_exclude
      else self.extend_exclude }

/-- The linter-field loop of Config.overwrite_from_config (config.py lines
246-250): `for field in fields(overwrite_config.linter): if value: setattr`.
Each field is copied exactly when its overlay value is Python-truthy. -/
def LinterConfig.overwriteFrom (self other : LinterConfig) : LinterConfig :=
  { configure := if optListTruthy other.configure then other.configure else self.configure
    select := if optListTruthy other.select then other.select else self.select
    ignore := if optListTruthy other.ignore then other.ignore else self.ignore
    issue_format := if optStrTruthy other.issue_format then other.issue_format
      else self.issue_format
    threshold := if other.threshold.isSome then other.threshold else self.threshold
    ext_rules := if optListTruthy other.ext_rules then other.ext_rules else self.ext_rules
    include_rules := if !other.include_rules.isEmpty then other.include_rules
      else self.include_rules
    exclude_rules := if !other.exclude_rules.isEmpty then other.exclude_rules
      else self.exclude_rules
    include_rules_patterns := if !other.include_rules_patterns.isEmpty
      then other.include_rules_patterns else self.include_rules_patterns
    exclude_rules_patterns := if !other.exclude_rules_patterns.isEmpty
      then other.exclude_rules_patterns else self.exclude_rules_patterns
    reports := if optListTruthy other.reports then other.reports else self.reports
    persistent := if optBoolTruthy other.persistent then other.persistent else self.persistent
    compare := if optBoolTruthy other.compare then other.compare else self.compare }

/-- Config.overwrite_from_config (config.py lines 235-251).  The top-level
field loop skips `linter`, `formatter`, `file_filters` and `config_source`
and copies each remaining field when its overlay value is Python-truthy
(`if value: setattr`); then the linter fields are copied the same way and
`file_filters.overwrite` is applied (which instead ignores only `None`). -/
def Config.overwrite_from_config (self : Config) (overwrite_config : Option Config) : Config :=
  match overwrite_config with
  | none => self
  | some o =>
    { sources := if optListTruthy o.sources then o.sources else self.sources
      language := if optListTruthy o.language then o.language else self.language
      exit_zero := if optBoolTruthy o.exit_zero then o.exit_zero else self.exit_zero
      config_source := self.config_source
      linter := self.linter.overwriteFrom o.linter
      file_filters := self.file_filters.overwrite o.file_filters }

/-- One reported finding (robocop.linter.diagnostics.Diagnostic, not under
src/; fields reduced to the ones the runner reads: the rule identity, the
severity carried by the message, and the start position used for ordering). -/
structure Diagnostic where
  rule_id : String
  severity : RuleSeverity
  line : Nat
  col : Nat

/-- Result of building the disabler index for one file
(robocop.linter.utils.disablers.DisablersFinder, not under src/).
Modelled from the spec: `file_disabled` answers whether a file-level disable
directive was found before any content, `is_rule_disabled` whether the
diagnostic's rule is suppressed at the diagnostic's location. -/
structure DisablersFinderResult where
  file_disabled : Bool
  is_rule_disabled : Diagnostic → Bool

/-- The parsed artefacts of one source file: the disabler index built from
its syntax tree and the `is_suite_templated` flag computed from it. -/
structure ParsedFile where
  disablers : DisablersFinderResult
  templated : Bool

/-- A checker (BaseChecker of robocop.linter.rules, not under src/): its
`disabled` flag, its rules, and its `scan_file` capability abstracted as a
function from the parsed file and the templated flag to raw diagnostics. -/
structure Checker where
  disabled : Bool
  rules : List Rule
  scan_file : ParsedFile → Bool → List Diagnostic

/-- RobocopLinter.any_rule_enabled (runner.py lines 77-83): refresh every
rule's `enabled` flag from the matcher and report whether any rule ended up
enabled. -/
def any_rule_enabled (config : Config) (checker : Checker) : Checker × Bool :=
  let newRules := checker.rules.map fun rule =>
    { rule with enabled := is_rule_enabled config rule }
  ({ checker with rules := newRules }, newRules.any fun rule => rule.enabled)

/-- RobocopLinter.check_for_disabled_rules (runner.py lines 70-76): after the
per-rule refresh, set `checker.disabled = True` when no rule of the checker
is enabled.  The source has no `else` branch: an already-true `disabled`
flag is never reset. -/
def check_for_disabled_rules (config : Config) (checkers : List Checker) : List Checker :=
  checkers.map fun checker =>
    let refreshed := any_rule_enabled config checker
    if !refreshed.2 then { refreshed.1 with disabled := true } else refreshed.1

/-- RobocopLinter.run_check (runner.py lines 122-136). -/
def run_check (config : Config) (checkers : List Checker) (parsed : ParsedFile) :
    List Diagnostic :=
  let disablers := parsed.disablers
  if disablers.file_disabled then []
  else
    let templated := parsed.templated
    checkers.foldl
      (fun found_diagnostics checker =>
        if checker.disabled then found_diagnostics
        else
          found_diagnostics ++ (checker.scan_file parsed templated).filter fun diagnostic =>
            !disablers.is_rule_disabled diagnostic
              && !severityLtOpt diagnostic.severity config.linter.threshold)
      []

/-- One discovered source together with its resolved Config and the outcome
of handing it to the external parser: `none` models the `DataError` raised by
`get_model` on a decode/parse failure. -/
structure SourceWithConfig where
  config : Config
  parsed : Option ParsedFile

/-- The per-file loop of RobocopLinter.run (runner.py lines 95-115),
threading the shared checker state and the cumulative `issues_no`.  The
`configure` directive application (configure_checkers_or_reports) rewrites
rule parameters and can abort the whole run; it does not touch the parse
step or the issue count and is left out of this model.  `diagnostics.sort()`
does not change the list length, so the count is taken before sorting. -/
def runLoop : List SourceWithConfig → List Checker → Nat → Nat
  | [], _, issues_no => issues_no
  | source :: rest, checkers, issues_no =>
    let checkers := check_for_disabled_rules source.config checkers
    match source.parsed with
    | none => runLoop rest checkers issues_no
    | some parsed =>
      let diagnostics := run_check source.config checkers parsed
      runLoop rest checkers (issues_no + diagnostics.length)

/-- RobocopLinter.return_with_exit_code (runner.py lines 138-156).  The
reports dictionary is abstracted to the association of report names with the
only attribute read here, the `return_status` report's `exit_code`. -/
def return_with_exit_code (default_config : Config) (reports : List (String × Nat))
    (issues_count : Nat) : Nat :=
  if optBoolTruthy default_config.exit_zero then 0
  else
    match reports.lookup "return_status" with
    | some code => code
    | none => if issues_count != 0 then 1 else 0

/-- One entry of the loaded report registry (reports/__init__.py
load_reports): the report name and its DEFAULT class flag.  The registry
itself is built by scanning the reports package, whose modules are not under
src/, so it is a parameter of the selection functions. -/
structure ReportInfo where
  name : String
  isDefault : Bool

/-- disable_external_reports_if_none (reports/__init__.py lines 74-81). -/
def disable_external_reports_if_none (configured_reports : List String) : List String :=
  if configured_reports.contains "None" then
    if configured_reports.contains "internal_json_report" then
      ["return_status", "internal_json_report"]
    else ["return_status"]
  else configured_reports

/-- The selection loop of get_reports (reports/__init__.py lines 92-101),
building the ordered dict of enabled report names: `all` appends every
DEFAULT-flagged registry entry not yet present, an unknown name raises
InvalidReportName (modelled as `Except.error name`), a known name is
appended once. -/
def getReportsLoop (registry : List ReportInfo) :
    List String → List String → Except String (List String)
  | [], enabled_reports => .ok enabled_reports
  | report :: rest, enabled_reports =>
    if report == "all" then
      let enabled_reports := registry.foldl
        (fun acc entry =>
          if entry.isDefault && !acc.contains entry.name then acc ++ [entry.name] else acc)
        enabled_reports
      getReportsLoop registry rest enabled_reports
    else if !(registry.any fun entry => entry.name == report) then .error report
    else if enabled_reports.contains report then getReportsLoop registry rest enabled_reports
    else getReportsLoop registry rest (enabled_reports ++ [report])

/-- get_reports (reports/__init__.py lines 84-102), returning the ordered
names of the enabled reports or the first unknown name. -/
def get_reports (registry : List ReportInfo) (configured_reports : List String) :
    Except String (List String) :=
  getReportsLoop registry (disable_external_reports_if_none configured_reports) []

/-- Directories are abstract identifiers for the closest-config walk. -/
abbrev DirId := Nat

/-- Resolved Config objects are identified by identity tokens: two equal
tokens stand for the very same Python object, mirroring the `is`-identity
the cache is specified to preserve. -/
abbrev CfgId := Nat

/-- The filesystem facts find_closest_config consults at one directory:
`loadAt d` is `some c` when probing the CONFIG_NAMES files in `d` yields a
valid configuration (already merged with the CLI overlay by
`overwrite_from_config`, producing the fresh object `c`), and `hasGit d`
tells whether `d` contains a `.git` directory. -/
structure WalkFS where
  loadAt : DirId → Option CfgId
  hasGit : DirId → Bool

/-- Python dict assignment `cache[d] = c` on the association-list cache. -/
def cacheSet (cache : List (DirId × CfgId)) (d : DirId) (c : CfgId) :
    List (DirId × CfgId) :=
  (d, c) :: cache.filter fun entry => entry.1 != d

/-- The `for check_dir in seen: self.cached_configs[check_dir] = config`
loop closing find_closest_config. -/
def cacheAll (seen : List DirId) (c : CfgId) (cache : List (DirId × CfgId)) :
    List (DirId × CfgId) :=
  seen.foldl (fun acc d => cacheSet acc d c) cache

/-- The `for check_dir in check_dirs` loop of find_closest_config
(config.py lines 380-396), with the `seen` accumulator made explicit.
A cache hit returns at once, leaving `seen` uncached; finding a config file
or (with `ignore_git_dir` unset) a `.git` directory breaks; exhaustion falls
through; every non-hit exit caches all of `seen` to the resulting config. -/
def fccGo (fs : WalkFS) (ignore_git_dir : Bool) (default_config : CfgId)
    (cache : List (DirId × CfgId)) :
    List DirId → List DirId → CfgId × List (DirId × CfgId)
  | [], seen => (default_config, cacheAll seen default_config cache)
  | check_dir :: rest, seen =>
    match cache.lookup check_dir with
    | some cached => (cached, cache)
    | none =>
      let seen := seen ++ [check_dir]
      match fs.loadAt check_dir with
      | some found => (found, cacheAll seen found cache)
      | none =>
        if !ignore_git_dir && fs.hasGit check_dir then
          (default_config, cacheAll seen default_config cache)
        else fccGo fs ignore_git_dir default_config cache rest seen

/-- ConfigManager.find_closest_config (config.py lines 369-396) over the
already-listed ancestor chain `check_dirs = [source, *source.parents]`
(computed from the source path after the initial parent step); it returns
the resolved Config object together with the updated cache. -/
def find_closest_config (fs : WalkFS) (ignore_git_dir : Bool) (default_config : CfgId)
    (cache : List (DirId × CfgId)) (check_dirs : List DirId) :
    CfgId × List (DirId × CfgId) :=
  fccGo fs ignore_git_dir default_config cache check_dirs []

/-- The config object a cache-miss-free walk resolves to: the first loaded
config on the chain, or the manager's default when a git root is met first
or the chain is exhausted. -/
def fccResult (fs : WalkFS) (ignore_git_dir : Bool) (default_config : CfgId) :
    List DirId → CfgId
  | [] => default_config
  | check_dir :: rest =>
    match fs.loadAt check_dir with
    | some found => found
    | none =>
      if !ignore_git_dir && fs.hasGit check_dir then default_config
      else fccResult fs ignore_git_dir default_config rest

/-- The directories a cache-miss-free walk appends to `seen`: every chain
directory up to and including the one where the walk stops. -/
def fccVisited (fs : WalkFS) (ignore_git_dir : Bool) : List DirId → List DirId
  | [] => []
  | check_dir :: rest =>
    if (fs.loadAt check_dir).isSome || (!ignore_git_dir && fs.hasGit check_dir) then
      [check_dir]
    else check_dir :: fccVisited fs ignore_git_dir rest

/-- An entry of the filesystem tree walked by resolve_paths: a file or a
directory with children, each carrying its resolved absolute path as an
abstract identifier. -/
inductive FsEntry where
  | file (path : Nat)
  | dir (path : Nat) (children : List FsEntry)

/-- The resolved path of an entry. -/
def FsEntry.path : FsEntry → Nat
  | .file p => p
  | .dir p _ => p

/-- Whether an entry is a plain file. -/
def FsEntry.isFile : FsEntry → Bool
  | .file _ => true
  | .dir _ _ => false

/-- `pathlib.Path.match` glob matching is external; a file-filter oracle
tells whether a path is excluded / included under the active Config's
FileFiltersOptions (FileFiltersOptions.path_excluded / path_included,
config.py lines 186-206). -/
structure FileFilterOracle where
  path_excluded : Nat → Bool
  path_included : Nat → Bool

/-- ConfigManager.resolve_paths (config.py lines 413-455) for existing
sources, accumulating the `self._paths` keys in order.  Per source: skip it
when already collected; when `ignore_file_filters` is unset, skip excluded
paths, and skip files failing the include filter; recurse into directories
with `ignore_file_filters` back at its default `False`; record files.
Config resolution per source is held fixed in the oracle (the claim under
study concerns the filter flag, not which config is resolved), and the
commented-out gitignore handling of the source is not modelled. -/
def resolve_paths (filters : FileFilterOracle) :
    List FsEntry → Bool → List Nat → List Nat
  | [], _, paths => paths
  | .file p :: rest, ignore_file_filters, paths =>
    if paths.contains p then resolve_paths filters rest ignore_file_filters paths
    else if !ignore_file_filters && filters.path_excluded p then
      resolve_paths filters rest ignore_file_filters paths
    else if !ignore_file_filters && !filters.path_included p then
      resolve_paths filters rest ignore_file_filters paths
    else resolve_paths filters rest ignore_file_filters (paths ++ [p])
  | .dir p children :: rest, ignore_file_filters, paths =>
    if paths.contains p then resolve_paths filters rest ignore_file_filters paths
    else if !ignore_file_filters && filters.path_excluded p then
      resolve_paths filters rest ignore_file_filters paths
    else
      resolve_paths filters rest ignore_file_filters
        (resolve_paths filters children false paths)

/-- Config.from_toml (config.py lines 219-233): only `config_source`,
`linter` and `file_filters` are taken from the file; every other field —
`sources` in particular — keeps its dataclass default. -/
def Config.from_toml (linter : LinterConfig) (file_filters : FileFiltersOptions)
    (config_path : String) : Config :=
  { config_source := config_path
    linter := linter
    file_filters := file_filters }

/-- ConfigManager.get_default_config (config.py lines 358-367): the config
loaded from an explicit `--config` file, or a fresh default Config, with the
CLI overlay applied on top. -/
def get_default_config (explicit_config : Option Config) (overwrite_config : Option Config) :
    Config :=
  match explicit_config with
  | some config => config.overwrite_from_config overwrite_config
  | none => Config.overwrite_from_config {} overwrite_config

/-- The source-list selection of the ConfigManager.paths property
(config.py lines 347-356): CLI sources when truthy, else the default
config's sources. -/
def effectiveSources (manager_sources : Option (List String)) (default_config : Config) :
    Option (List String) :=
  if optListTruthy manager_sources then manager_sources else default_config.sources

/-- The `ignore_file_filters = bool(sources)` flag the paths property hands
to resolve_paths for the top-level source list. -/
def pathsIgnoreFileFilters (manager_sources : Option (List String))
    (default_config : Config) : Bool :=
  optListTruthy (effectiveSources manager_sources default_config)

/-- A config excluding rule 0101 while also including it, for exercising the
exclude-before-include precedence. -/
def cfgC3 : Config :=
  { linter := { exclude_rules := ["0101"], include_rules := ["0101"] } }

/-- A live rule carrying id 0101. -/
def ruleC3 : Rule :=
  { rule_id := "0101", name := "some-rule", severity := .warning, enabled := true
    deprecated := false, enabled_in_version := true, severity_threshold := false }

/-- A config with the default (low) Info threshold. -/
def cfgLowC9 : Config := {}

/-- The same config with the threshold raised to Error. -/
def cfgHighC9 : Config := { linter := { threshold := some .error } }

/-- An error-severity rule, enabled under both thresholds. -/
def ruleC9 : Rule :=
  { rule_id := "0902", name := "severe-rule", severity := .error, enabled := true
    deprecated := false, enabled_in_version := true, severity_threshold := false }

/-- A parsed file whose disabler index reports the whole file disabled. -/
def parsedC5 : ParsedFile :=
  { disablers := { file_disabled := true, is_rule_disabled := fun _ => false }
    templated := false }

/-- A checker that would report one diagnostic if it were invoked. -/
def checkerC5 : Checker :=
  { disabled := false
    rules := [{ rule_id := "0501", name := "noisy-rule", severity := .error, enabled := true
                deprecated := false, enabled_in_version := true, severity_threshold := false }]
    scan_file := fun _ _ => [{ rule_id := "0501", severity := .error, line := 1, col := 1 }] }

/-- A source file whose parse fails with a DataError. -/
def srcC6 : SourceWithConfig := { config := {}, parsed := none }

/-- A checker present while the failing file is skipped. -/
def checkerC6 : Checker :=
  { disabled := false
    rules := [{ rule_id := "0601", name := "plain-rule", severity := .warning, enabled := true
                deprecated := false, enabled_in_version := true, severity_threshold := false }]
    scan_file := fun _ _ => [] }

/-- A filesystem with no config files and no git roots anywhere. -/
def fsC1 : WalkFS := { loadAt := fun _ => none, hasGit := fun _ => false }

/-- A filesystem whose directory 1 holds a loadable config (object 5). -/
def fsC1w : WalkFS :=
  { loadAt := fun d => if d == 1 then some 5 else none, hasGit := fun _ => false }

/-- A file-based config that sets exit_zero to True. -/
def fileCfgC2 : Config := { exit_zero := some true, config_source := "robocop.toml" }

/-- A CLI overlay in which the caller explicitly supplied `--no-exit-zero`,
so exit_zero is the defined value False rather than the unset None. -/
def cliCfgC2 : Config := { exit_zero := some false }

/-- A report registry as load_reports would produce it: the always-on status
sink, the internal json report (default-off), and a default-on sink. -/
def regC7 : List ReportInfo :=
  [{ name := "return_status", isDefault := true },
   { name := "internal_json_report", isDefault := false },
   { name := "print_issues", isDefault := true }]

/-- A config under which ruleC8 is enabled. -/
def cfgC8 : Config := {}

/-- An enabled, current-version rule owned by the latched checker. -/
def ruleC8 : Rule :=
  { rule_id := "0810", name := "latched-rule", severity := .warning, enabled := true
    deprecated := false, enabled_in_version := true, severity_threshold := false }

/-- A checker left disabled by an earlier file's config, although the
current config enables its rule. -/
def chC8 : Checker := { disabled := true, rules := [ruleC8], scan_file := fun _ _ => [] }

/-- A file-filter oracle that excludes every path and includes none, the
harshest filtering possible. -/
def filtC10 : FileFilterOracle :=
  { path_excluded := fun _ => true, path_included := fun _ => false }

/-- is_rule_disabled as one boolean disjunction of its four early-return
conditions, in source order. -/
theorem is_rule_disabled_or (config : Config) (rule : Rule) :
    is_rule_disabled config rule
      = ((rule.deprecated || !rule.enabled_in_version)
        || (severityLtOpt rule.severity config.linter.threshold && !rule.severity_threshold)
        || (config.linter.exclude_rules.contains rule.rule_id
            || config.linter.exclude_rules.contains rule.name)
        || config.linter.exclude_rules_patterns.any fun pattern =>
            pattern rule.rule_id || pattern rule.name) := by
  unfold is_rule_disabled
  cases h1 : (rule.deprecated || !rule.enabled_in_version) <;>
    cases h2 : (severityLtOpt rule.severity config.linter.threshold
        && !rule.severity_threshold) <;>
      cases h3 : (config.linter.exclude_rules.contains rule.rule_id
          || config.linter.exclude_rules.contains rule.name) <;>
        simp [h1, h2, h3]

/-- A rule the matcher reports enabled has passed the disable checks. -/
theorem is_rule_enabled_imp_not_disabled (config : Config) (rule : Rule)
    (h : is_rule_enabled config rule = true) : is_rule_disabled config rule = false := by
  cases hd : is_rule_disabled config rule
  · rfl
  · exfalso
    unfold is_rule_enabled at h
    rw [hd] at h
    simp at h

/-- C3: for every rule and every config, if the rule's id or name is in the
exclude set or matches an exclude pattern, then is_rule_enabled returns
false, even when the same rule also appears in the include set or matches an
include pattern — exclude is evaluated before include and always wins. -/
theorem C3_exclude_always_wins (config : Config) (rule : Rule)
    (h : config.linter.exclude_rules.contains rule.rule_id = true
      ∨ config.linter.exclude_rules.contains rule.name = true
      ∨ (config.linter.exclude_rules_patterns.any fun pattern =>
          pattern rule.rule_id || pattern rule.name) = true) :
    is_rule_enabled config rule = false := by
  have hdis : is_rule_disabled config rule = true := by
    rw [is_rule_disabled_or]
    rcases h with h | h | h <;>
      simp only [h, Bool.or_true, Bool.true_or, Bool.or_false, Bool.false_or]
  unfold is_rule_enabled
  rw [hdis]
  simp

/-- Witness for C3: rule 0101 is simultaneously excluded and included, and
ends up disabled. -/
theorem C3_exclude_always_wins_witness : is_rule_enabled cfgC3 ruleC3 = false :=
  C3_exclude_always_wins cfgC3 ruleC3 (Or.inl (by rfl))

/-- Raising the threshold can only widen the set of severities below it. -/
theorem severityLtOpt_mono (s t_low t_high : RuleSeverity)
    (hle : t_low.rank ≤ t_high.rank) (h : severityLtOpt s (some t_low) = true) :
    severityLtOpt s (some t_high) = true := by
  simp [severityLtOpt] at h ⊢
  omega

/-- C9: the severity threshold is monotonic over rule enablement — between
two configs agreeing on every rule-selection field but the threshold, every
rule enabled under the higher threshold is also enabled under the lower one,
and a rule that opted out through the severity_threshold parameter is
enabled under one config exactly when it is enabled under the other. -/
theorem C9_threshold_monotone (c_low c_high : Config) (rule : Rule)
    (t_low t_high : RuleSeverity)
    (hlow : c_low.linter.threshold = some t_low)
    (hhigh : c_high.linter.threshold = some t_high)
    (hle : t_low.rank ≤ t_high.rank)
    (hexc : c_low.linter.exclude_rules = c_high.linter.exclude_rules)
    (hexcp : c_low.linter.exclude_rules_patterns = c_high.linter.exclude_rules_patterns)
    (hinc : c_low.linter.include_rules = c_high.linter.include_rules)
    (hincp : c_low.linter.include_rules_patterns = c_high.linter.include_rules_patterns) :
    (is_rule_enabled c_high rule = true → is_rule_enabled c_low rule = true)
    ∧ (rule.severity_threshold = true →
        is_rule_enabled c_low rule = is_rule_enabled c_high rule) := by
  constructor
  · intro hHigh
    have hdHigh : is_rule_disabled c_high rule = false :=
      is_rule_enabled_imp_not_disabled _ _ hHigh
    have hdLow : is_rule_disabled c_low rule = false := by
      rw [is_rule_disabled_or, hlow, hexc, hexcp]
      rw [is_rule_disabled_or, hhigh] at hdHigh
      simp only [Bool.or_eq_false_iff] at hdHigh ⊢
      refine ⟨⟨⟨hdHigh.1.1.1, ?_⟩, hdHigh.1.2⟩, hdHigh.2⟩
      cases hst : rule.severity_threshold
      · have h2 : severityLtOpt rule.severity (some t_high) = false := by
          have := hdHigh.1.1.2
          rw [hst] at this
          simpa using this
        cases hsl : severityLtOpt rule.severity (some t_low)
        · simp
        · exact absurd (severityLtOpt_mono _ _ _ hle hsl) (by simp [h2])
      · simp [hst]
    have heq : is_rule_enabled c_low rule = is_rule_enabled c_high rule := by
      unfold is_rule_enabled
      rw [hdLow, hdHigh, hinc, hincp]
    rw [heq]
    exact hHigh
  · intro hst
    have hdeq : is_rule_disabled c_low rule = is_rule_disabled c_high rule := by
      rw [is_rule_disabled_or, is_rule_disabled_or, hlow, hhigh, hexc, hexcp, hst]
      simp
    unfold is_rule_enabled
    rw [hdeq, hinc, hincp]

/-- Witness for C9: the error-severity rule is enabled under the Error
threshold and, by monotonicity, under the default Info threshold. -/
theorem C9_threshold_monotone_witness :
    is_rule_enabled cfgHighC9 ruleC9 = true ∧ is_rule_enabled cfgLowC9 ruleC9 = true := by
  have h := C9_threshold_monotone cfgLowC9 cfgHighC9 ruleC9 .info .error
    rfl rfl (by decide) rfl rfl rfl rfl
  exact ⟨rfl, h.1 rfl⟩

/-- C4: the process exit code is 0 whenever exit_zero is configured (even
with issues found); otherwise, when the return_status sink is active, its
computed code is used; otherwise 1 exactly when the cumulative issue count
is nonzero. -/
theorem C4_exit_code (default_config : Config) (reports : List (String × Nat))
    (issues_count : Nat) :
    (optBoolTruthy default_config.exit_zero = true →
      return_with_exit_code default_config reports issues_count = 0)
    ∧ (optBoolTruthy default_config.exit_zero = false →
        ∀ code, reports.lookup "return_status" = some code →
          return_with_exit_code default_config reports issues_count = code)
    ∧ (optBoolTruthy default_config.exit_zero = false →
        reports.lookup "return_status" = none →
          return_with_exit_code default_config reports issues_count
            = if issues_count != 0 then 1 else 0) := by
  unfold return_with_exit_code
  refine ⟨fun h => by simp [h], fun h code hcode => by simp [h, hcode],
    fun h hnone => by simp [h, hnone]⟩

/-- Witness for C4: exit_zero with three issues exits 0; the return_status
sink's code 2 is used when active; otherwise three issues exit 1. -/
theorem C4_exit_code_witness :
    return_with_exit_code { exit_zero := some true } [] 3 = 0
    ∧ return_with_exit_code { exit_zero := some false } [("return_status", 2)] 0 = 2
    ∧ return_with_exit_code { exit_zero := some false } [] 3 = 1 := by
  refine ⟨(C4_exit_code { exit_zero := some true } [] 3).1 rfl,
    (C4_exit_code { exit_zero := some false } [("return_status", 2)] 0).2.1 rfl 2 rfl, ?_⟩
  have h := (C4_exit_code { exit_zero := some false } [] 3).2.2 rfl rfl
  simpa using h

/-- C5: a file whose disabler index reports the whole file disabled yields
an empty diagnostic list from run_check — no checker output survives,
whatever the checkers and the config. -/
theorem C5_file_disabled_skips_file (config : Config) (checkers : List Checker)
    (parsed : ParsedFile) (h : parsed.disablers.file_disabled = true) :
    run_check config checkers parsed = [] := by
  unfold run_check
  simp [h]

/-- Witness for C5: a checker that would report a diagnostic produces none
on a file-disabled file. -/
theorem C5_file_disabled_skips_file_witness : run_check {} [checkerC5] parsedC5 = [] :=
  C5_file_disabled_skips_file {} [checkerC5] parsedC5 rfl

/-- C6: a parse/decode failure for one source file is recovered: the loop
step for the failing file leaves the cumulative issue count unchanged and
continues with the remaining files (the checker refresh for the file's
config still happens before the parse attempt, as in the source). -/
theorem C6_parse_failure_recovered (source : SourceWithConfig)
    (rest : List SourceWithConfig) (checkers : List Checker) (issues_no : Nat)
    (h : source.parsed = none) :
    runLoop (source :: rest) checkers issues_no
      = runLoop rest (check_for_disabled_rules source.config checkers) issues_no := by
  simp only [runLoop, h]

/-- Witness for C6: an unparsable lone file leaves the running count at 5
and the run terminates normally. -/
theorem C6_parse_failure_recovered_witness : runLoop [srcC6] [checkerC6] 5 = 5 :=
  (C6_parse_failure_recovered srcC6 [] [checkerC6] 5 rfl).trans rfl

/-- Writing a key makes it readable. -/
theorem lookup_cacheSet_self (cache : List (DirId × CfgId)) (d : DirId) (c : CfgId) :
    (cacheSet cache d c).lookup d = some c := by
  simp [cacheSet]

/-- Dropping every entry for another key does not change a key's binding. -/
theorem lookup_filter_ne (cache : List (DirId × CfgId)) (d d' : DirId) (h : d ≠ d') :
    (cache.filter fun entry => entry.1 != d').lookup d = cache.lookup d := by
  induction cache with
  | nil => rfl
  | cons entry rest ih =>
    by_cases he : entry.1 = d'
    · rw [List.filter_cons_of_neg (by simp [he])]
      rw [ih]
      have hne : (d == entry.1) = false := by simp [he, h]
      simp [List.lookup, hne]
    · rw [List.filter_cons_of_pos (by simp [he])]
      by_cases hd : d = entry.1
      · simp [List.lookup, hd]
      · have hne : (d == entry.1) = false := by simp [hd]
        simp [List.lookup, hne, ih]

/-- Writing a different key leaves a key's binding unchanged. -/
theorem lookup_cacheSet_ne (cache : List (DirId × CfgId)) (d d' : DirId) (c : CfgId)
    (h : d ≠ d') : (cacheSet cache d' c).lookup d = cache.lookup d := by
  unfold cacheSet
  have hdd : (d == d') = false := by simp [h]
  simp [List.lookup, hdd, lookup_filter_ne cache d d' h]

/-- A binding to the config being written everywhere survives cacheAll. -/
theorem lookup_cacheAll_stable (seen : List DirId) (c : CfgId)
    (cache : List (DirId × CfgId)) (d : DirId) (h : cache.lookup d = some c) :
    (cacheAll seen c cache).lookup d = some c := by
  induction seen generalizing cache with
  | nil => exact h
  | cons s rest ih =>
    unfold cacheAll
    simp only [List.foldl_cons]
    apply ih
    by_cases hds : d = s
    · subst hds
      exact lookup_cacheSet_self cache d c
    · rw [lookup_cacheSet_ne cache d s c hds]
      exact h

/-- Every directory in the seen list ends bound to the resolved config. -/
theorem lookup_cacheAll_mem (seen : List DirId) (c : CfgId)
    (cache : List (DirId × CfgId)) (d : DirId) (hd : d ∈ seen) :
    (cacheAll seen c cache).lookup d = some c := by
  induction seen generalizing cache with
  | nil => cases hd
  | cons s rest ih =>
    unfold cacheAll
    simp only [List.foldl_cons]
    rcases List.mem_cons.mp hd with h | h
    · subst h
      exact lookup_cacheAll_stable rest c _ d (lookup_cacheSet_self cache d c)
    · exact ih _ h

/-- A walk over directories none of which is cached resolves to
`fccResult` and caches exactly the accumulated seen list extended by
`fccVisited`. -/
theorem fccGo_no_hit (fs : WalkFS) (ig : Bool) (default_config : CfgId)
    (cache : List (DirId × CfgId)) (dirs seen : List DirId)
    (hmiss : ∀ d ∈ dirs, cache.lookup d = none) :
    fccGo fs ig default_config cache dirs seen
      = (fccResult fs ig default_config dirs,
         cacheAll (seen ++ fccVisited fs ig dirs)
           (fccResult fs ig default_config dirs) cache) := by
  induction dirs generalizing seen with
  | nil => simp [fccGo, fccResult, fccVisited]
  | cons d rest ih =>
    have hd : cache.lookup d = none := hmiss d (List.mem_cons_self d rest)
    rw [show fccGo fs ig default_config cache (d :: rest) seen
        = (match cache.lookup d with
          | some cached => (cached, cache)
          | none =>
            match fs.loadAt d with
            | some found => (found, cacheAll (seen ++ [d]) found cache)
            | none =>
              if !ig && fs.hasGit d then
                (default_config, cacheAll (seen ++ [d]) default_config cache)
              else fccGo fs ig default_config cache rest (seen ++ [d]))
        from rfl]
    rw [hd]
    cases hload : fs.loadAt d with
    | some found =>
      simp [fccResult, fccVisited, hload]
    | none =>
      by_cases hgit : (!ig && fs.hasGit d) = true
      · simp [fccResult, fccVisited, hload, hgit]
      · have hgit' : (!ig && fs.hasGit d) = false := by
          cases hb : (!ig && fs.hasGit d)
          · rfl
          · exact absurd hb hgit
        rw [if_neg (by simp [hgit'])]
        rw [ih (seen ++ [d]) fun e he => hmiss e (List.mem_cons_of_mem d he)]
        simp [fccResult, fccVisited, hload, hgit', List.append_assoc]

/-- C1 counterexample: with directory 1 already cached to config object 7
and no config files anywhere, walking `[0, 1]` examines directory 0 (it is
probed for config files) and then returns the cached object at directory 1 —
but afterwards directory 0 has no cache entry at all, refuting the claim
that every directory examined during the walk maps in the cache to the
returned Config object and is never re-probed. -/
theorem C1_cache_every_visited_dir_counterexample :
    find_closest_config fsC1 false 9 [(1, 7)] [0, 1] = (7, [(1, 7)])
    ∧ ((find_closest_config fsC1 false 9 [(1, 7)] [0, 1]).2.lookup 0 = none) :=
  ⟨rfl, rfl⟩

/-- C1 amended: when the upward walk terminates without meeting an
already-cached directory (it finds a config file, stops at a git root, or
exhausts the ancestor chain), every directory it visited is cached to the
one returned Config object, and a subsequent lookup starting at any cached
directory returns that identical object immediately, with the cache — and
hence the set of probed directories — unchanged.  A walk that instead hits
the cache partway returns the cached object but does not cache the
directories examined before the hit. -/
theorem C1_cache_every_visited_dir_amended (fs : WalkFS) (ig : Bool)
    (default_config : CfgId) (cache : List (DirId × CfgId)) (check_dirs : List DirId)
    (hmiss : ∀ d ∈ check_dirs, cache.lookup d = none) :
    (∀ d ∈ fccVisited fs ig check_dirs,
      (find_closest_config fs ig default_config cache check_dirs).2.lookup d
        = some (find_closest_config fs ig default_config cache check_dirs).1)
    ∧ (∀ (cache' : List (DirId × CfgId)) (d : DirId) (c : CfgId) (rest : List DirId),
        cache'.lookup d = some c →
        find_closest_config fs ig default_config cache' (d :: rest) = (c, cache')) := by
  constructor
  · intro d hd
    unfold find_closest_config
    rw [fccGo_no_hit fs ig default_config cache check_dirs [] hmiss]
    exact lookup_cacheAll_mem _ _ _ _ (by simpa using hd)
  · intro cache' d c rest hc
    unfold find_closest_config
    rw [show fccGo fs ig default_config cache' (d :: rest) []
        = (match cache'.lookup d with
          | some cached => (cached, cache')
          | none =>
            match fs.loadAt d with
            | some found => (found, cacheAll [d] found cache')
            | none =>
              if !ig && fs.hasGit d then
                (default_config, cacheAll [d] default_config cache')
              else fccGo fs ig default_config cache' rest [d])
        from rfl]
    rw [hc]

/-- Witness for the amended C1: a cache-miss-free walk over `[0, 1, 2]`
finding a config (object 5) at directory 1 caches directories 0 and 1 to the
returned object, and a follow-up lookup at either returns it unchanged. -/
theorem C1_cache_every_visited_dir_amended_witness :
    ((find_closest_config fsC1w false 9 [] [0, 1, 2]).2.lookup 0
        = some (find_closest_config fsC1w false 9 [] [0, 1, 2]).1)
    ∧ ((find_closest_config fsC1w false 9 [] [0, 1, 2]).2.lookup 1
        = some (find_closest_config fsC1w false 9 [] [0, 1, 2]).1)
    ∧ find_closest_config fsC1w false 9
        (find_closest_config fsC1w false 9 [] [0, 1, 2]).2 [0, 1, 2]
      = ((find_closest_config fsC1w false 9 [] [0, 1, 2]).1,
         (find_closest_config fsC1w false 9 [] [0, 1, 2]).2) := by
  have h := C1_cache_every_visited_dir_amended fsC1w false 9 [] [0, 1, 2]
    (fun d _ => rfl)
  refine ⟨h.1 0 (by decide), h.1 1 (by decide), ?_⟩
  exact h.2 _ 0 _ [1, 2] (h.1 0 (by decide))

/-- C2 counterexample: the caller explicitly supplied exit_zero = False on
the CLI, yet merging the overlay onto a file config with exit_zero = True
keeps True — the explicitly supplied False is treated as unset, refuting the
claim that a CLI field overrides the file value iff the caller explicitly
set it. -/
theorem C2_cli_overrides_iff_defined_counterexample :
    cliCfgC2.exit_zero = some false
    ∧ (fileCfgC2.overwrite_from_config (some cliCfgC2)).exit_zero = some true :=
  ⟨rfl, rfl⟩

/-- C2 amended: a CLI field overrides the file value exactly when the CLI
value is Python-truthy — an explicitly supplied False, None or empty list
never overrides a top-level or linter field; only the file_filters fields
track provenance, overriding whenever the CLI value is not None (an explicit
empty filter set does override there). -/
theorem C2_cli_overrides_iff_defined_amended (base overlay : Config) :
    ((base.overwrite_from_config (some overlay)).exit_zero
      = if optBoolTruthy overlay.exit_zero then overlay.exit_zero else base.exit_zero)
    ∧ ((base.overwrite_from_config (some overlay)).sources
      = if optListTruthy overlay.sources then overlay.sources else base.sources)
    ∧ ((base.overwrite_from_config (some overlay)).linter.select
      = if optListTruthy overlay.linter.select then overlay.linter.select
        else base.linter.select)
    ∧ ((base.overwrite_from_config (some overlay)).linter.threshold
      = if overlay.linter.threshold.isSome then overlay.linter.threshold
        else base.linter.threshold)
    ∧ ((base.overwrite_from_config (some overlay)).file_filters.exclude
      = if overlay.file_filters.exclude.isSome then overlay.file_filters.exclude
        else base.file_filters.exclude) :=
  ⟨rfl, rfl, rfl, rfl, rfl⟩

/-- C8 counterexample: a checker whose disabled flag was latched true by an
earlier file's config stays disabled under a config that enables its rule —
after check_for_disabled_rules the flag is true while a rule is enabled,
refuting the claimed "disabled iff no rule enabled" and the claimed
re-enabling. -/
theorem C8_checker_disabled_iff_counterexample :
    (check_for_disabled_rules cfgC8 [chC8]).map
        (fun checker => (checker.disabled, checker.rules.any fun rule => rule.enabled))
      = [(true, true)] :=
  rfl

/-- C8 amended: check_for_disabled_rules refreshes every rule's enabled flag
through the matcher and sets a checker's disabled flag to true when none of
its rules are enabled, but it never resets the flag: the resulting flag is
the old flag OR-ed with "no rule enabled", so a checker disabled under an
earlier file's Config stays disabled even when a later Config enables its
rules. -/
theorem C8_checker_disabled_iff_amended (config : Config) (checkers : List Checker) :
    (check_for_disabled_rules config checkers
      = checkers.map fun checker =>
          { checker with
            rules := checker.rules.map fun rule =>
              { rule with enabled := is_rule_enabled config rule }
            disabled := checker.disabled
              || !(checker.rules.any fun rule => is_rule_enabled config rule) })
    ∧ (∀ (config' : Config) (checker : Checker), checker.disabled = true →
        ∀ checker' ∈ check_for_disabled_rules config' [checker],
          checker'.disabled = true) := by
  have hstep : ∀ (cfg : Config) (checker : Checker),
      (let refreshed := any_rule_enabled cfg checker
        if !refreshed.2 then { refreshed.1 with disabled := true } else refreshed.1)
      = { checker with
          rules := checker.rules.map fun rule =>
            { rule with enabled := is_rule_enabled cfg rule }
          disabled := checker.disabled
            || !(checker.rules.any fun rule => is_rule_enabled cfg rule) } := by
    intro cfg checker
    unfold any_rule_enabled
    have hany : ((checker.rules.map fun rule =>
          { rule with enabled := is_rule_enabled cfg rule }).any fun rule => rule.enabled)
        = checker.rules.any fun rule => is_rule_enabled cfg rule := by
      rw [List.any_map]
      rfl
    cases he : checker.rules.any fun rule => is_rule_enabled cfg rule
    · simp only [hany, he, Bool.not_false, if_pos]
      simp [Bool.or_true]
    · simp only [hany, he, Bool.not_true, Bool.or_false]
      simp
  constructor
  · unfold check_for_disabled_rules
    exact List.map_congr_left fun checker _ => hstep config checker
  · intro config' checker hdis checker' hmem
    unfold check_for_disabled_rules at hmem
    simp only [List.map_cons, List.map_nil, List.mem_singleton] at hmem
    rw [hstep config' checker] at hmem
    subst hmem
    simp [hdis]

/-- Witness for the amended C8: a checker latched disabled stays disabled
under a config that enables its rule. -/
theorem C8_checker_disabled_iff_amended_witness :
    (check_for_disabled_rules cfgC8 [chC8]).map (fun checker => checker.disabled)
      = [true] := by
  have h := (C8_checker_disabled_iff_amended cfgC8 [chC8]).2 cfgC8 chC8 rfl
  have hmem : ∀ checker' ∈ check_for_disabled_rules cfgC8 [chC8],
      checker'.disabled = true := h
  rw [(C8_checker_disabled_iff_amended cfgC8 [chC8]).1]
  rfl

/-- Membership in the `all`-expansion fold of get_reports: a name is
collected exactly when it was already collected or some default-flagged
registry entry carries it. -/
theorem mem_all_expansion (registry : List ReportInfo) (acc : List String)
    (name : String) :
    (name ∈ registry.foldl
        (fun acc entry =>
          if entry.isDefault && !acc.contains entry.name then acc ++ [entry.name] else acc)
        acc)
      ↔ (name ∈ acc ∨ ∃ entry ∈ registry, entry.isDefault = true ∧ entry.name = name) := by
  induction registry generalizing acc with
  | nil => simp
  | cons entry rest ih =>
    simp only [List.foldl_cons]
    rw [ih, List.exists_mem_cons_iff]
    by_cases hdef : entry.isDefault = true
    · by_cases hacc : acc.contains entry.name = true
      · have hmem : entry.name ∈ acc := by simpa using hacc
        rw [if_neg (by simp [hacc]; exact fun _ => hmem)]
        constructor
        · rintro (h | h)
          · exact Or.inl h
          · exact Or.inr (Or.inr h)
        · rintro (h | ⟨hd, hn⟩ | h)
          · exact Or.inl h
          · exact Or.inl (hn ▸ hmem)
          · exact Or.inr h
      · have hacc' : acc.contains entry.name = false := by
          cases h : acc.contains entry.name
          · rfl
          · exact absurd h hacc
        have hnotmem : entry.name ∉ acc := by simpa using hacc'
        rw [if_pos (by simp [hdef, hacc', hnotmem])]
        rw [show (name ∈ acc ++ [entry.name]) ↔ (name ∈ acc ∨ name = entry.name) from by
          simp [List.mem_append]]
        constructor
        · rintro ((h | h) | h)
          · exact Or.inl h
          · exact Or.inr (Or.inl ⟨hdef, h.symm⟩)
          · exact Or.inr (Or.inr h)
        · rintro (h | ⟨hd, hn⟩ | h)
          · exact Or.inl (Or.inl h)
          · exact Or.inl (Or.inr hn.symm)
          · exact Or.inr h
    · rw [if_neg (by simp [hdef])]
      constructor
      · rintro (h | h)
        · exact Or.inl h
        · exact Or.inr (Or.inr h)
      · rintro (h | ⟨hd, hn⟩ | h)
        · exact Or.inl h
        · exact absurd hd hdef
        · exact Or.inr h

/-- C7 counterexample: the none token is the exact string "None", and with
it present the selection keeps internal_json_report enabled alongside the
status sink whenever it was also configured, while the lowercase spelling
"none" is rejected as an unknown sink — both refuting the claim that a
"none" anywhere disables every sink except the always-on status sink. -/
theorem C7_report_selection_counterexample :
    get_reports regC7 ["None", "internal_json_report"]
      = .ok ["return_status", "internal_json_report"]
    ∧ get_reports regC7 ["none"] = .error "none" := by
  constructor <;> rfl

/-- C7 amended: if the configured list contains the exact token "None",
every sink is disabled except the always-on return_status sink — and
internal_json_report, which survives when it was itself configured; "all"
expands to exactly the default-on sinks of the registry; a configured name
that is neither a special token nor a known sink is a fatal configuration
error. -/
theorem C7_report_selection_amended (registry : List ReportInfo) :
    (∀ configured : List String,
      configured.contains "None" = true →
      configured.contains "internal_json_report" = false →
      (registry.any fun entry => entry.name == "return_status") = true →
      get_reports registry configured = .ok ["return_status"])
    ∧ (∀ configured : List String,
      configured.contains "None" = true →
      configured.contains "internal_json_report" = true →
      (registry.any fun entry => entry.name == "return_status") = true →
      (registry.any fun entry => entry.name == "internal_json_report") = true →
      get_reports registry configured = .ok ["return_status", "internal_json_report"])
    ∧ (∃ enabled, get_reports registry ["all"] = .ok enabled
        ∧ ∀ name, name ∈ enabled
            ↔ ∃ entry ∈ registry, entry.isDefault = true ∧ entry.name = name)
    ∧ (∀ name : String,
      ([name].contains "None") = false →
      (name == "all") = false →
      (registry.any fun entry => entry.name == name) = false →
      get_reports registry [name] = .error name) := by
  refine ⟨?_, ?_, ?_, ?_⟩
  · intro configured h1 h2 hrs
    unfold get_reports disable_external_reports_if_none
    rw [if_pos h1, if_neg (by simpa using h2)]
    simp [getReportsLoop, hrs]
  · intro configured h1 h2 hrs hijr
    unfold get_reports disable_external_reports_if_none
    rw [if_pos h1, if_pos h2]
    simp [getReportsLoop, hrs, hijr]
  · have hall : get_reports registry ["all"]
        = .ok (registry.foldl
            (fun acc entry =>
              if entry.isDefault && !acc.contains entry.name then acc ++ [entry.name]
              else acc)
            []) := by
      simp [get_reports, disable_external_reports_if_none, getReportsLoop]
    refine ⟨_, hall, fun name => ?_⟩
    rw [mem_all_expansion]
    simp
  · intro name h1 h2 h3
    unfold get_reports disable_external_reports_if_none
    rw [if_neg (by simpa using h1)]
    simp [getReportsLoop, h2, h3]

/-- Witness for the amended C7: on a registry holding return_status,
internal_json_report and print_issues, "None" keeps only return_status
(plus internal_json_report when configured), "all" enables exactly the
default-on sinks, and an unknown name is a fatal error. -/
theorem C7_report_selection_amended_witness :
    get_reports regC7 ["None"] = .ok ["return_status"]
    ∧ get_reports regC7 ["timestamp", "None"] = .ok ["return_status"]
    ∧ get_reports regC7 ["unknown_report"] = .error "unknown_report"
    ∧ (∃ enabled, get_reports regC7 ["all"] = .ok enabled
        ∧ ("print_issues" ∈ enabled
            ↔ ∃ entry ∈ regC7, entry.isDefault = true ∧ entry.name = "print_issues")) := by
  have h := C7_report_selection_amended regC7
  refine ⟨h.1 ["None"] (by decide) (by decide) (by decide),
    h.1 ["timestamp", "None"] (by decide) (by decide) (by decide), ?_, ?_⟩
  · exact h.2.2.2 "unknown_report" (by decide) (by decide) (by decide)
  · obtain ⟨enabled, hok, hchar⟩ := h.2.2.1
    exact ⟨enabled, hok, hchar "print_issues"⟩

/-- The merged sources field of overwrite_from_config, read off the record. -/
theorem overwrite_from_config_sources (base o : Config) :
    (base.overwrite_from_config (some o)).sources
      = if optListTruthy o.sources then o.sources else base.sources := rfl

/-- Every default config produced by get_default_config carries a truthy
sources list: Config.from_toml never sets `sources`, and the CLI overlay
only replaces it by a truthy value. -/
theorem get_default_config_sources_truthy
    (explicit : Option (LinterConfig × FileFiltersOptions × String))
    (overwrite_config : Option Config) :
    optListTruthy (get_default_config
      (explicit.map fun e => Config.from_toml e.1 e.2.1 e.2.2) overwrite_config).sources
      = true := by
  cases explicit with
  | none =>
    cases overwrite_config with
    | none => rfl
    | some o =>
      show optListTruthy ((Config.overwrite_from_config {} (some o)).sources) = true
      rw [overwrite_from_config_sources]
      cases ho : optListTruthy o.sources
      · rw [if_neg (by simp [ho])]
        rfl
      · rw [if_pos (by simp [ho])]
        exact ho
  | some e =>
    cases overwrite_config with
    | none => rfl
    | some o =>
      show optListTruthy
        (((Config.from_toml e.1 e.2.1 e.2.2).overwrite_from_config (some o)).sources) = true
      rw [overwrite_from_config_sources]
      cases ho : optListTruthy o.sources
      · rw [if_neg (by simp [ho])]
        rfl
      · rw [if_pos (by simp [ho])]
        exact ho

/-- C10: top-level source paths are never subjected to include/exclude file
filtering, even when the sources come from the configuration default rather
than the command line: the paths property always computes
ignore_file_filters = true for the top-level resolve_paths call, a top-level
file is collected regardless of the filters, a top-level directory is
descended into regardless of the exclude filter, and the descent itself runs
with filtering back on, dropping an excluded file. -/
theorem C10_top_level_bypasses_filters (manager_sources : Option (List String))
    (explicit : Option (LinterConfig × FileFiltersOptions × String))
    (overwrite_config : Option Config) (filters : FileFilterOracle) (p d : Nat) :
    pathsIgnoreFileFilters manager_sources
        (get_default_config
          (explicit.map fun e => Config.from_toml e.1 e.2.1 e.2.2) overwrite_config)
      = true
    ∧ resolve_paths filters [.file p] true [] = [p]
    ∧ (filters.path_excluded p = true → resolve_paths filters [.file p] false [] = [])
    ∧ resolve_paths filters [.dir d [.file p]] true []
        = resolve_paths filters [.file p] false [] := by
  refine ⟨?_, ?_, ?_, ?_⟩
  · unfold pathsIgnoreFileFilters effectiveSources
    cases hm : optListTruthy manager_sources
    · rw [if_neg (by simp [hm])]
      exact get_default_config_sources_truthy explicit overwrite_config
    · rw [if_pos (by simp)]
      exact hm
  · simp [resolve_paths]
  · intro hexcl
    simp [resolve_paths, hexcl]
  · simp [resolve_paths]

/-- Witness for C10: under an oracle that excludes every path and includes
none, the computed flag is still true, the top-level file 3 is still
collected, and the same file reached through the top-level directory 4 is
filtered out. -/
theorem C10_top_level_bypasses_filters_witness :
    pathsIgnoreFileFilters none (get_default_config none none) = true
    ∧ resolve_paths filtC10 [.file 3] true [] = [3]
    ∧ resolve_paths filtC10 [.file 3] false [] = []
    ∧ resolve_paths filtC10 [.dir 4 [.file 3]] true []
        = resolve_paths filtC10 [.file 3] false [] := by
  have h := C10_top_level_bypasses_filters none none none filtC10 3 4
  exact ⟨h.1, h.2.1, h.2.2.1 rfl, h.2.2.2⟩

end Robocop
